import Mathlib

/-!
Verification development for the safebed nearby-location pipeline.

The definitions below are a shallow embedding of the repository source:
  - src/utils/hours.ts        (weekly open-hours evaluator)
  - src/utils/geo.ts          (haversine distance decorator)
  - src/app/api/locations/route.ts
                              (coordinate resolver, filter/rank pipeline,
                               GET request handler)

Modelling conventions:
  - JavaScript numbers are modelled as rationals.  Values produced by
    Number.parseInt are modelled by the type JsInt, which has an explicit
    NaN element, because the hours evaluator genuinely manipulates NaN.
    JSON-transported numbers are finite, so the rational model is exact on
    the reachable inputs; IEEE infinities and rounding are outside scope.
  - The trigonometric haversine formula (distanceInKm) is transcendental
    and is threaded through the pipeline as an explicit function
    parameter; every theorem about the pipeline is universally quantified
    over it, and witnesses instantiate it with a concrete function.
  - The wall clock read by new Date() is made explicit as a JsDate
    argument.
  - The Supabase client and the bundled mock dataset are not part of the
    sources; the store outcome is an explicit oracle argument of GET and
    the dataset is modelled from the spec (see mockLocations).
-/

namespace SafeBed

/-! ### JavaScript integer values (results of Number.parseInt) -/

/-- A JavaScript number that is the result of integer parsing or of
integer arithmetic: either NaN or an integer.  (parseInt, 60 *, +, and
the normalize function in hours.ts only produce such values.) -/
inductive JsInt where
  | nan : JsInt
  | int : ℤ → JsInt
deriving DecidableEq, Repr

/-- Whether the value is an actual integer (not NaN). -/
def JsInt.isInt : JsInt → Bool
  | .nan => false
  | .int _ => true

/-- JavaScript addition restricted to JsInt: NaN propagates. -/
def jsAdd : JsInt → JsInt → JsInt
  | .int a, .int b => .int (a + b)
  | _, _ => .nan

/-- JavaScript multiplication restricted to JsInt: NaN propagates. -/
def jsMul : JsInt → JsInt → JsInt
  | .int a, .int b => .int (a * b)
  | _, _ => .nan

/-- JavaScript comparison a <= b on JsInt: any comparison with NaN is false. -/
def jsLe : JsInt → JsInt → Bool
  | .int a, .int b => a ≤ b
  | _, _ => false

/-- JavaScript comparison a < b on JsInt: any comparison with NaN is false. -/
def jsLt : JsInt → JsInt → Bool
  | .int a, .int b => a < b
  | _, _ => false

/-- JavaScript comparison a >= b on JsInt: any comparison with NaN is false. -/
def jsGe : JsInt → JsInt → Bool
  | .int a, .int b => b ≤ a
  | _, _ => false

/-! ### Character-level parsing helpers (models of JS string builtins) -/

/-- JavaScript white space recognised while skipping a numeric prefix. -/
def isWsChar (c : Char) : Bool :=
  c = ' ' || c = '\t' || c = '\n' || c = '\r'

/-- Drop leading white space. -/
def skipWsChars : List Char → List Char
  | [] => []
  | c :: cs => if isWsChar c then skipWsChars cs else c :: cs

/-- ASCII decimal digit test. -/
def isDigitChar (c : Char) : Bool :=
  48 ≤ c.toNat && c.toNat ≤ 57

/-- Value of an ASCII decimal digit. -/
def digitVal (c : Char) : ℕ := c.toNat - 48

/-- Split a character list into its longest digit prefix and the rest. -/
def takeDigits : List Char → List Char × List Char
  | [] => ([], [])
  | c :: cs =>
    if isDigitChar c then
      let p := takeDigits cs
      (c :: p.1, p.2)
    else ([], c :: cs)

/-- Decimal value of a digit list. -/
def digitsToNat (ds : List Char) : ℕ :=
  ds.foldl (fun acc c => acc * 10 + digitVal c) 0

/-- Model of Number.parseInt(s, 10) on a character list: skip white
space, read an optional sign, then the longest digit prefix; NaN when
there is no digit. -/
def parseIntChars (cs : List Char) : JsInt :=
  let cs1 := skipWsChars cs
  let signed : Bool × List Char :=
    match cs1 with
    | '-' :: r => (true, r)
    | '+' :: r => (false, r)
    | r => (false, r)
  let p := takeDigits signed.2
  if p.1.isEmpty then .nan
  else if signed.1 then .int (-(digitsToNat p.1 : ℤ))
  else .int (digitsToNat p.1 : ℤ)

/-- Model of Number.parseInt(s, 10) on a string. -/
def parseIntJs (s : String) : JsInt := parseIntChars s.data

/-- Split on a separator character; mirrors String.prototype.split with a
single-character separator (and Lean String.splitOn): the empty string
yields one empty field, and a trailing separator yields an empty field. -/
def splitOnChar (sep : Char) : List Char → List (List Char)
  | [] => [[]]
  | c :: cs =>
    if c = sep then [] :: splitOnChar sep cs
    else
      match splitOnChar sep cs with
      | [] => [[c]]
      | g :: gs => (c :: g) :: gs

/-! ### src/utils/hours.ts -/

/-- Minutes in a day (24 * 60 in the source). -/
def MINUTES_IN_DAY : ℤ := 1440

/-- The parts of a time string split on the colon, as in
time.split(":") in toMinutes. -/
def timeParts (time : String) : List (List Char) :=
  splitOnChar ':' time.data

/-- The hour component string of a time string (first split field;
always present). -/
def hourStrOf (time : String) : List Char :=
  (timeParts time).headD []

/-- The minute component string of a time string: second split field, or
"0" when the field is missing (the minuteStr ?? "0" default). -/
def minuteStrOf (time : String) : List Char :=
  ((timeParts time).get? 1).getD ['0']

/-- Model of toMinutes in hours.ts: parse hour and minute components and
return hours * 60 + minutes (NaN propagating). -/
def toMinutes (time : String) : JsInt :=
  let hours := parseIntChars (hourStrOf time)
  let minutes := parseIntChars (minuteStrOf time)
  jsAdd (jsMul hours (.int 60)) minutes

/-- Model of normalize in hours.ts: one single wrap step.  A negative
mark gets 1440 added once; a mark at or above 1440 gets 1440 subtracted
once; NaN satisfies neither comparison and passes through. -/
def normalize (minuteMark : JsInt) : JsInt :=
  match minuteMark with
  | .nan => .nan
  | .int v =>
    if v < 0 then .int (v + MINUTES_IN_DAY)
    else if MINUTES_IN_DAY ≤ v then .int (v - MINUTES_IN_DAY)
    else .int v

/-- Model of intervalContains in hours.ts, with JavaScript comparison
semantics on possibly-NaN endpoints; the current minute is a genuine
integer (it comes from Date getters). -/
def intervalContains (s e : JsInt) (current : ℤ) : Bool :=
  if jsLe s e then jsGe (.int current) s && jsLt (.int current) e
  else jsGe (.int current) s || jsLt (.int current) e

/-- The instant read from a JavaScript Date: weekday (Sunday = 0),
hours, minutes, as returned by getDay / getHours / getMinutes. -/
structure JsDate where
  getDay : Fin 7
  getHours : Fin 24
  getMinutes : Fin 60
deriving DecidableEq, Repr

/-- Minutes since midnight of a JsDate. -/
def minutesOf (d : JsDate) : ℤ :=
  d.getHours.val * 60 + d.getMinutes.val

/-- The dayKeys array of hours.ts. -/
def dayKeysList : List String :=
  ["sun", "mon", "tue", "wed", "thu", "fri", "sat"]

/-- dayKeys indexed by getDay. -/
def dayKeys (i : Fin 7) : String :=
  dayKeysList.get ⟨i.val, by simp [dayKeysList]⟩

/-- A weekly schedule: weekday key to interval list, as an association
list (JavaScript object keys are unique; lookup takes the first match). -/
def HoursSchedule : Type :=
  List (String × List (String × String))

instance : DecidableEq HoursSchedule :=
  inferInstanceAs (DecidableEq (List (String × List (String × String))))

instance : Repr HoursSchedule :=
  inferInstanceAs (Repr (List (String × List (String × String))))

/-- Model of isOpenNow in hours.ts.  The reference date (defaulted to
new Date() in the source) is an explicit argument. -/
def isOpenNow (hours : Option HoursSchedule) (referenceDate : JsDate) : Bool :=
  match hours with
  | none => false
  | some h =>
    let todayKey := dayKeys referenceDate.getDay
    match List.lookup todayKey h with
    | none => false
    | some todaysHours =>
      if todaysHours.isEmpty then false
      else
        todaysHours.any fun p =>
          intervalContains (normalize (toMinutes p.1)) (normalize (toMinutes p.2))
            (minutesOf referenceDate)

/-! ### JSON values and a model of JSON.parse

The geometry column of a store row is an arbitrary JSON value (`unknown`
in the source).  Json below is the value domain; jsonParse models the
JSON.parse builtin on the grammar fragment the route can receive:
null, booleans, decimal numbers (optional sign, fraction and exponent),
escape-free strings, arrays and objects.  String escape sequences are
not modelled; no claim depends on them. -/

/-- A JSON value (also used as the model of a JavaScript value of type
`unknown` flowing out of the store). -/
inductive Json where
  | null : Json
  | bool : Bool → Json
  | num : ℚ → Json
  | str : String → Json
  | arr : List Json → Json
  | obj : List (String × Json) → Json
deriving Repr

/-- JavaScript truthiness of a JSON value. -/
def jsTruthyJson : Json → Bool
  | .null => false
  | .bool b => b
  | .num q => q ≠ 0
  | .str s => s ≠ ""
  | .arr _ => true
  | .obj _ => true

/-- Whether typeof gives "object" for a non-null JSON value (arrays and
objects; null is handled by the truthiness guard in the source). -/
def isObjectJson : Json → Bool
  | .arr _ => true
  | .obj _ => true
  | _ => false

/-- Property access parsed.coordinates style: the first field of that
name of an object, none otherwise (undefined in JavaScript). -/
def getField : Json → String → Option Json
  | .obj fields, k => (fields.find? fun p => p.1 = k).map (·.2)
  | _, _ => none

/-- The `"coordinates" in geom` membership test of the source (true only
for objects carrying the field; arrays have no such property name). -/
def hasCoordinates (g : Json) : Bool :=
  match g with
  | .obj fields => fields.any fun p => p.1 = "coordinates"
  | _ => false

/-- Longest digit prefix evaluated with a fractional scale:
returns (value, number of digits, rest). -/
def takeFracDigits (cs : List Char) : ℚ × ℕ × List Char :=
  let p := takeDigits cs
  ((digitsToNat p.1 : ℚ) / (10 : ℚ) ^ p.1.length, p.1.length, p.2)

/-- Parse the body of a JSON number after an optional leading minus:
integer part, optional fraction, optional exponent. -/
def parseNumBody (cs : List Char) : Option (ℚ × List Char) :=
  let ip := takeDigits cs
  if ip.1.isEmpty then none
  else
    let intVal : ℚ := (digitsToNat ip.1 : ℚ)
    let afterInt := ip.2
    let fracStep : ℚ × List Char :=
      match afterInt with
      | '.' :: r =>
        let f := takeFracDigits r
        (intVal + f.1, f.2.2)
      | r => (intVal, r)
    let expStep : ℚ × List Char :=
      match fracStep.2 with
      | 'e' :: r =>
        match r with
        | '-' :: r2 =>
          let ep := takeDigits r2
          (fracStep.1 / (10 : ℚ) ^ digitsToNat ep.1, ep.2)
        | '+' :: r2 =>
          let ep := takeDigits r2
          (fracStep.1 * (10 : ℚ) ^ digitsToNat ep.1, ep.2)
        | r2 =>
          let ep := takeDigits r2
          (fracStep.1 * (10 : ℚ) ^ digitsToNat ep.1, ep.2)
      | 'E' :: r =>
        match r with
        | '-' :: r2 =>
          let ep := takeDigits r2
          (fracStep.1 / (10 : ℚ) ^ digitsToNat ep.1, ep.2)
        | '+' :: r2 =>
          let ep := takeDigits r2
          (fracStep.1 * (10 : ℚ) ^ digitsToNat ep.1, ep.2)
        | r2 =>
          let ep := takeDigits r2
          (fracStep.1 * (10 : ℚ) ^ digitsToNat ep.1, ep.2)
      | r => (fracStep.1, r)
    some expStep

/-- Take the characters of a JSON string body up to the closing quote
(escape sequences not modelled). -/
def takeStringBody : List Char → Option (List Char × List Char)
  | [] => none
  | c :: cs =>
    if c = '"' then some ([], cs)
    else
      match takeStringBody cs with
      | some (body, rest) => some (c :: body, rest)
      | none => none

/-- Match a literal keyword prefix. -/
def takeKeyword : List Char → List Char → Option (List Char)
  | [], cs => some cs
  | k :: ks, c :: cs => if c = k then takeKeyword ks cs else none
  | _ :: _, [] => none

mutual

/-- Recursive-descent JSON value parser (fuel-indexed; the fuel bounds
the nesting depth, one unit per recursive call). -/
def parseJsonValue : ℕ → List Char → Option (Json × List Char)
  | 0, _ => none
  | fuel + 1, cs =>
    match skipWsChars cs with
    | [] => none
    | c :: rest =>
      if c = 'n' then (takeKeyword ['u', 'l', 'l'] rest).map (fun r => (Json.null, r))
      else if c = 't' then (takeKeyword ['r', 'u', 'e'] rest).map (fun r => (Json.bool true, r))
      else if c = 'f' then (takeKeyword ['a', 'l', 's', 'e'] rest).map (fun r => (Json.bool false, r))
      else if c = '"' then (takeStringBody rest).map (fun p => (Json.str (String.mk p.1), p.2))
      else if c = '[' then
        match skipWsChars rest with
        | ']' :: r => some (Json.arr [], r)
        | r2 =>
          match parseJsonItems fuel r2 with
          | some (items, r3) => some (Json.arr items, r3)
          | none => none
      else if c = '\x7b' then
        match skipWsChars rest with
        | '\x7d' :: r => some (Json.obj [], r)
        | r2 =>
          match parseJsonFields fuel r2 with
          | some (fields, r3) => some (Json.obj fields, r3)
          | none => none
      else if c = '-' then
        match parseNumBody rest with
        | some (q, r) => some (Json.num (-q), r)
        | none => none
      else if isDigitChar c then
        match parseNumBody (c :: rest) with
        | some (q, r) => some (Json.num q, r)
        | none => none
      else none

/-- Comma-separated array items followed by a closing bracket. -/
def parseJsonItems : ℕ → List Char → Option (List Json × List Char)
  | 0, _ => none
  | fuel + 1, cs =>
    match parseJsonValue fuel cs with
    | some (v, rest) =>
      match skipWsChars rest with
      | ',' :: r =>
        match parseJsonItems fuel r with
        | some (items, r2) => some (v :: items, r2)
        | none => none
      | ']' :: r => some ([v], r)
      | _ => none
    | none => none

/-- Comma-separated object fields followed by a closing brace. -/
def parseJsonFields : ℕ → List Char → Option (List (String × Json) × List Char)
  | 0, _ => none
  | fuel + 1, cs =>
    match skipWsChars cs with
    | '"' :: r =>
      match takeStringBody r with
      | some (key, r2) =>
        match skipWsChars r2 with
        | ':' :: r3 =>
          match parseJsonValue fuel r3 with
          | some (v, r4) =>
            match skipWsChars r4 with
            | ',' :: r5 =>
              match parseJsonFields fuel r5 with
              | some (fields, r6) => some ((String.mk key, v) :: fields, r6)
              | none => none
            | '\x7d' :: r5 => some ([(String.mk key, v)], r5)
            | _ => none
          | none => none
        | _ => none
      | none => none
    | _ => none

end

/-- Model of JSON.parse: parse one value and require only white space to
remain; none models a thrown SyntaxError. -/
def jsonParse (s : String) : Option Json :=
  match parseJsonValue (s.data.length + 1) s.data with
  | some (j, rest) => if (skipWsChars rest).isEmpty then some j else none
  | none => none

/-! ### Number.parseFloat and query parameter parsing (route.ts) -/

/-- Model of Number.parseFloat on the decimal fragment: longest valid
prefix consisting of white space, an optional sign, digits, an optional
fraction and an optional exponent; none models NaN (no digit found).
The Infinity keyword and IEEE rounding are outside the rational model. -/
def jsParseFloat (s : String) : Option ℚ :=
  let cs1 := skipWsChars s.data
  let signed : Bool × List Char :=
    match cs1 with
    | '-' :: r => (true, r)
    | '+' :: r => (false, r)
    | r => (false, r)
  let ip := takeDigits signed.2
  let fr : ℚ × ℕ × List Char :=
    match ip.2 with
    | '.' :: r => takeFracDigits r
    | r => (0, 0, r)
  if ip.1.isEmpty && fr.2.1 = 0 then none
  else
    let mant : ℚ := (digitsToNat ip.1 : ℚ) + fr.1
    let scaled : ℚ :=
      match fr.2.2 with
      | 'e' :: r =>
        match r with
        | '-' :: r2 =>
          let ep := takeDigits r2
          if ep.1.isEmpty then mant else mant / (10 : ℚ) ^ digitsToNat ep.1
        | '+' :: r2 =>
          let ep := takeDigits r2
          if ep.1.isEmpty then mant else mant * (10 : ℚ) ^ digitsToNat ep.1
        | r2 =>
          let ep := takeDigits r2
          if ep.1.isEmpty then mant else mant * (10 : ℚ) ^ digitsToNat ep.1
      | 'E' :: r =>
        match r with
        | '-' :: r2 =>
          let ep := takeDigits r2
          if ep.1.isEmpty then mant else mant / (10 : ℚ) ^ digitsToNat ep.1
        | '+' :: r2 =>
          let ep := takeDigits r2
          if ep.1.isEmpty then mant else mant * (10 : ℚ) ^ digitsToNat ep.1
        | r2 =>
          let ep := takeDigits r2
          if ep.1.isEmpty then mant else mant * (10 : ℚ) ^ digitsToNat ep.1
      | _ => mant
    some (if signed.1 then -scaled else scaled)

/-- Model of parseNumber in route.ts: null stays null, parseFloat, and a
NaN result becomes null. -/
def parseNumber (value : Option String) : Option ℚ :=
  value.bind jsParseFloat

/-- Lower-case an ASCII character (model of toLowerCase on the
parameter values in play). -/
def toLowerChar (c : Char) : Char :=
  if 65 ≤ c.toNat ∧ c.toNat ≤ 90 then Char.ofNat (c.toNat + 32) else c

/-- Model of parseBooleanParam in route.ts. -/
def parseBooleanParam (value : Option String) : Option Bool :=
  match value with
  | none => none
  | some s =>
    let normalized := s.data.map toLowerChar
    if normalized ∈ ["true".data, "1".data, "yes".data, "y".data] then some true
    else if normalized ∈ ["false".data, "0".data, "no".data, "n".data] then some false
    else none

/-! ### Data model (src/types/locations.ts) -/

/-- The LocationRecord shape of the application layer.  The category and
gender fields are string unions in TypeScript and are modelled as
strings; optional-or-null fields are Options. -/
structure LocationRecord where
  id : String
  name : String
  category : String
  phone : Option String
  website : Option String
  address : Option String
  notes : Option String
  meters : Option ℚ
  capacity : Option ℤ
  beds_available : Option ℤ
  hours : Option HoursSchedule
  accessible : Option Bool
  pets_allowed : Option Bool
  gender_restriction : Option String
  lgbtq_friendly : Option Bool
  updated_at : Option String
  last_verified_at : Option String
  source : Option String
  latitude : Option ℚ
  longitude : Option ℚ
deriving DecidableEq, Repr

/-! ### src/utils/geo.ts -/

/-- Model of Math.round: round half toward positive infinity. -/
def jsRound (q : ℚ) : ℤ := ⌊q + mkRat 1 2⌋

/-- Model of attachDistance in geo.ts.  The haversine distanceInKm
function is transcendental, so it is taken as an explicit argument dist;
everything proved about the pipeline holds for every dist.  When either
coordinate is null the distance is set to null; otherwise the kilometre
distance is converted to metres and rounded. -/
def attachDistance (dist : ℚ → ℚ → ℚ → ℚ → ℚ) (record : LocationRecord)
    (originLat originLng : ℚ) : LocationRecord :=
  match record.latitude, record.longitude with
  | some la, some lo =>
    { record with meters := some ((jsRound (dist originLat originLng la lo * 1000) : ℚ)) }
  | _, _ => { record with meters := none }

/-! ### src/app/api/locations/route.ts -/

/-- A raw store row (NearbyLocationRow).  The geometry column is an
arbitrary JSON value; null models both null and undefined coordinate
fields. -/
structure NearbyLocationRow where
  id : String
  name : String
  category : String
  phone : Option String
  website : Option String
  address : Option String
  notes : Option String
  meters : Option ℚ
  capacity : Option ℤ
  beds_available : Option ℤ
  hours : Option HoursSchedule
  accessible : Option Bool
  pets_allowed : Option Bool
  gender_restriction : Option String
  lgbtq_friendly : Option Bool
  updated_at : Option String
  last_verified_at : Option String
  source : Option String
  latitude : Option ℚ
  longitude : Option ℚ
  lat : Option ℚ
  lng : Option ℚ
  geom : Json
deriving Repr

/-- Third resolution shape of extractCoordinates: a truthy object value
carrying a coordinates field whose value is an array of length at least
two; the first two entries are returned reordered (they are returned
verbatim, whatever JSON values they are). -/
def coordFromGeomObj (g : Json) : Option (Json × Json) :=
  if jsTruthyJson g && isObjectJson g && hasCoordinates g then
    match getField g "coordinates" with
    | some (Json.arr (lngV :: latV :: _)) => some (latV, lngV)
    | _ => none
  else none

/-- Fourth resolution shape of extractCoordinates: a string geometry,
deserialized with JSON.parse; a parse failure (or a parsed value without
a suitable coordinates array, including the throwing null case) falls
through silently. -/
def coordFromGeomText (g : Json) : Option (Json × Json) :=
  match g with
  | .str s =>
    match jsonParse s with
    | some parsed =>
      match getField parsed "coordinates" with
      | some (Json.arr (lngV :: latV :: _)) => some (latV, lngV)
      | _ => none
    | none => none
  | _ => none

/-- Model of extractCoordinates in route.ts.  The result components are
JavaScript values (Json.null plays the role of null): the source
annotates the result as numbers but the geometry branches return the
raw array entries. -/
def extractCoordinates (row : NearbyLocationRow) : Json × Json :=
  match row.latitude, row.longitude with
  | some a, some b => (Json.num a, Json.num b)
  | _, _ =>
    match row.lat, row.lng with
    | some a, some b => (Json.num a, Json.num b)
    | _, _ =>
      match coordFromGeomObj row.geom with
      | some p => p
      | none =>
        match coordFromGeomText row.geom with
        | some p => p
        | none => (Json.null, Json.null)

/-- Coerce a resolved coordinate back into the number-or-null typing of
LocationRecord (the source casts; values outside number-or-null can only
arise from malformed geometry arrays and are outside the record model). -/
def jsNumOfJson : Json → Option ℚ
  | .num q => some q
  | _ => none

/-- Model of toLocationRecord in route.ts. -/
def toLocationRecord (row : NearbyLocationRow) : LocationRecord :=
  let coords := extractCoordinates row
  { id := row.id
    name := row.name
    category := row.category
    phone := row.phone
    website := row.website
    address := row.address
    notes := row.notes
    meters := row.meters
    capacity := row.capacity
    beds_available := row.beds_available
    hours := row.hours
    accessible := row.accessible
    pets_allowed := row.pets_allowed
    gender_restriction := row.gender_restriction
    lgbtq_friendly := row.lgbtq_friendly
    updated_at := row.updated_at
    last_verified_at := row.last_verified_at
    source := row.source
    latitude := jsNumOfJson coords.1
    longitude := jsNumOfJson coords.2 }

/-- Maximum result count (MAX_RESULTS in the source). -/
def MAX_RESULTS : ℕ := 50

/-- Default radius in kilometres (DEFAULT_RADIUS_KM in the source). -/
def DEFAULT_RADIUS_KM : ℚ := 5

/-- The filter options destructured by applyFilters. -/
structure FilterOptions where
  category : Option String
  openNow : Bool
  accessible : Option Bool
  pets : Option Bool
  gender : Option String
  radiusKm : ℚ
  lat : ℚ
  lng : ℚ
deriving DecidableEq, Repr

/-- JavaScript truthiness of a string-or-null value (the empty string is
falsy). -/
def jsTruthyStr (o : Option String) : Bool :=
  o.getD "" ≠ ""

/-- The radius exclusion test of the predicate filter:
record.meters != null, Number.isFinite(record.meters) and
record.meters > radiusKm * 1000.  In the rational model every present
number is finite, so the finiteness conjunct is identically true. -/
def radiusExcludes (meters : Option ℚ) (radiusKm : ℚ) : Bool :=
  match meters with
  | some m => radiusKm * 1000 < m
  | none => false

/-- The retention predicate of applyFilters (the body of the filter
callback), with the evaluation instant of the undated isOpenNow call
made explicit. -/
def filterKeep (now : JsDate) (opts : FilterOptions) (record : LocationRecord) : Bool :=
  if jsTruthyStr opts.category && record.category != opts.category.getD "" then false
  else if opts.accessible != none && record.accessible != opts.accessible then false
  else if opts.pets != none && record.pets_allowed != opts.pets then false
  else if jsTruthyStr opts.gender && jsTruthyStr record.gender_restriction &&
      record.gender_restriction.getD "" != opts.gender.getD "" then false
  else if opts.openNow && !isOpenNow record.hours now then false
  else if radiusExcludes record.meters opts.radiusKm then false
  else true

/-- The sort key order of the comparator
(a.meters ?? Infinity) - (b.meters ?? Infinity): null sorts as positive
infinity, and the NaN produced by comparing two nulls acts as a tie. -/
def keyLe (a b : Option ℚ) : Bool :=
  match a, b with
  | some x, some y => x ≤ y
  | some _, none => true
  | none, some _ => false
  | none, none => true

/-- The comparator order lifted to records. -/
def sortLe (a b : LocationRecord) : Bool :=
  keyLe a.meters b.meters

/-- Model of applyFilters in route.ts: distance fill, predicate filter,
sort ascending by distance (Array.prototype.sort with a consistent
comparator sorts; modelled by mergeSort), truncate to MAX_RESULTS. -/
def applyFilters (dist : ℚ → ℚ → ℚ → ℚ → ℚ) (now : JsDate)
    (records : List LocationRecord) (opts : FilterOptions) : List LocationRecord :=
  ((((records.map fun record =>
        if record.meters != none then record
        else attachDistance dist record opts.lat opts.lng)).filter
      (filterKeep now opts)).mergeSort sortLe).take MAX_RESULTS

/-- Modelled from the spec: the bundled mock dataset
(src/data/mock-locations.ts is referenced by the route but is not among
the sources).  Per the spec it is a fixed, bundled small dataset of
example locations carrying canonical latitude/longitude fields; the
concrete values below are representative placeholders. -/
def mockLocations : List LocationRecord :=
  [{ id := "mock-1", name := "Example Shelter", category := "shelter",
     phone := none, website := none, address := some "100 Example St",
     notes := none, meters := none, capacity := some 40,
     beds_available := some 5,
     hours := some [("sun", [("19:00", "07:00")]), ("mon", [("19:00", "07:00")])],
     accessible := some true, pets_allowed := some false,
     gender_restriction := some "all", lgbtq_friendly := some true,
     updated_at := none, last_verified_at := none, source := some "mock",
     latitude := some (mkRat 436532 10000), longitude := some (mkRat (-793832) 10000) },
   { id := "mock-2", name := "Example Food Bank", category := "food_bank",
     phone := none, website := none, address := some "200 Example Ave",
     notes := none, meters := none, capacity := none, beds_available := none,
     hours := some [("mon", [("09:00", "17:00")])],
     accessible := some true, pets_allowed := none,
     gender_restriction := none, lgbtq_friendly := none,
     updated_at := none, last_verified_at := none, source := some "mock",
     latitude := some (mkRat 4366 100), longitude := some (mkRat (-7939) 100) }]

/-- The outcome of the Supabase section of GET, as an oracle: no
configured client (getSupabaseClient returned null), the awaited rpc
threw, the rpc reported an error payload, or the rpc succeeded with a
possibly-null data payload.  (getSupabaseClient and the client live in
src/lib/supabase.ts, which is not among the sources; only the branching
on the outcome, which is fully visible in route.ts, is modelled.) -/
inductive StoreResult where
  | noClient : StoreResult
  | rpcThrew : StoreResult
  | rpcError : StoreResult
  | rpcData : Option (List NearbyLocationRow) → StoreResult

/-- The response of GET: an OK results payload, or an error payload with
a status (NextResponse.json with and without an explicit status). -/
inductive GetResponse where
  | ok : List LocationRecord → GetResponse
  | clientError : ℕ → String → GetResponse
deriving DecidableEq, Repr

/-- The query parameters read by GET (searchParams.get results). -/
structure SearchParams where
  lat : Option String
  lng : Option String
  radius_km : Option String
  category : Option String
  open_now : Option String
  accessible : Option String
  pets : Option String
  gender : Option String
deriving DecidableEq, Repr

/-- The filterOptions object GET builds once coordinates validated. -/
def filterOptionsOf (params : SearchParams) (lat lng : ℚ) : FilterOptions :=
  { category := params.category
    openNow := (parseBooleanParam params.open_now).getD false
    accessible := parseBooleanParam params.accessible
    pets := parseBooleanParam params.pets
    gender := params.gender
    radiusKm := (parseNumber params.radius_km).getD DEFAULT_RADIUS_KM
    lat := lat
    lng := lng }

/-- The fallback candidate set: the mock dataset with every distance
reset to null before filtering. -/
def fallbackRecords : List LocationRecord :=
  mockLocations.map fun record => { record with meters := none }

/-- Model of the GET handler in route.ts.  The wall clock and the store
outcome are explicit arguments; the 400 message of the source carries
quoted parameter names, elided here.  On a client input error the
handler returns immediately; the store branch returns the rpc rows only
when the rpc produced a non-null error-free data payload, and every
other outcome falls through to the fallback dataset; either way the
response is an OK payload built by applyFilters. -/
def GET (dist : ℚ → ℚ → ℚ → ℚ → ℚ) (now : JsDate) (params : SearchParams)
    (store : StoreResult) : GetResponse :=
  match parseNumber params.lat, parseNumber params.lng with
  | some latV, some lngV =>
    let filterOptions := filterOptionsOf params latV lngV
    match store with
    | .rpcData (some data) =>
      .ok (applyFilters dist now (data.map toLocationRecord) filterOptions)
    | _ => .ok (applyFilters dist now fallbackRecords filterOptions)
  | _, _ => .clientError 400 "Query parameters lat and lng are required."

def specIntervalContainsB (s e : JsInt) (current : ℤ) : Bool :=
  match s, e with
  | .int a, .int b =>
    if a ≤ b then decide (a ≤ current ∧ current < b)
    else decide ((a ≤ current ∧ current < 1440) ∨ (0 ≤ current ∧ current < b))
  | _, _ => false


/-- Helper: an integer JsInt is exactly an int constructor. -/
theorem JsInt.isInt_iff {j : JsInt} : j.isInt = true ↔ ∃ v, j = .int v := by
  cases j <;> simp [JsInt.isInt]


/-- Helper: normalize maps integers to integers. -/
theorem normalize_int (v : ℤ) : ∃ w, normalize (.int v) = .int w := by
  simp only [normalize]
  split_ifs <;> exact ⟨_, rfl⟩


/-- Helper: the current minute of a Date is nonnegative. -/
theorem minutesOf_nonneg (d : JsDate) : 0 ≤ minutesOf d := by
  unfold minutesOf; positivity


/-- Helper: the current minute of a Date is below 1440. -/
theorem minutesOf_lt (d : JsDate) : minutesOf d < 1440 := by
  unfold minutesOf
  have h1 := d.getHours.isLt
  have h2 := d.getMinutes.isLt
  omega


/-- Helper: for integer endpoints and a current minute inside the day,
the code containment test agrees with the specification rule. -/
theorem intervalContains_eq_spec (a b cur : ℤ) (h0 : 0 ≤ cur) (h1 : cur < 1440) :
    intervalContains (.int a) (.int b) cur = specIntervalContainsB (.int a) (.int b) cur := by
  simp only [intervalContains, specIntervalContainsB, jsLe, jsGe, jsLt]
  by_cases hab : a ≤ b
  · simp [hab]
  · by_cases h2 : a ≤ cur <;> by_cases h3 : cur < b <;>
      simp [hab, h2, h3] <;> omega


/-- C2 (amended theorem).  For every schedule S and time T: isOpenNow
is false when S is absent and false when S has no (or an empty) entry
for the weekday of T; and for a day entry all of whose interval
endpoints evaluate to numeric minute values, isOpenNow is true exactly
when some interval of that day contains the minutes-since-midnight of T
under the specification rule (half-open band when start is at most end,
wrapped union otherwise).  The numericity restriction is what the
counterexample isOpenNow_claim_false forces: with a NaN endpoint the
code can report open even though the claimed rule matches nothing. -/
theorem isOpenNow_amended (T : JsDate) :
    isOpenNow none T = false ∧
    (∀ h, List.lookup (dayKeys T.getDay) h = none → isOpenNow (some h) T = false) ∧
    (∀ h, List.lookup (dayKeys T.getDay) h = some [] → isOpenNow (some h) T = false) ∧
    (∀ h l, List.lookup (dayKeys T.getDay) h = some l →
      (∀ p ∈ l, (toMinutes p.1).isInt ∧ (toMinutes p.2).isInt) →
      (isOpenNow (some h) T = true ↔
        ∃ p ∈ l, specIntervalContainsB (normalize (toMinutes p.1))
          (normalize (toMinutes p.2)) (minutesOf T) = true)) := by
  refine ⟨rfl, ?_, ?_, ?_⟩
  · intro h hl; simp [isOpenNow, hl]
  · intro h hl; simp [isOpenNow, hl]
  · intro h l hl hnum
    simp only [isOpenNow, hl]
    rcases l with _ | ⟨p0, rest⟩
    · simp
    · simp only [List.isEmpty_cons, if_false, Bool.false_eq_true]
      rw [List.any_eq_true]
      constructor
      · rintro ⟨p, hp, hc⟩
        refine ⟨p, hp, ?_⟩
        obtain ⟨v1, hv1⟩ := JsInt.isInt_iff.mp (hnum p hp).1
        obtain ⟨v2, hv2⟩ := JsInt.isInt_iff.mp (hnum p hp).2
        obtain ⟨w1, hw1⟩ := normalize_int v1
        obtain ⟨w2, hw2⟩ := normalize_int v2
        rw [hv1, hv2, hw1, hw2] at hc ⊢
        rw [← intervalContains_eq_spec _ _ _ (minutesOf_nonneg T) (minutesOf_lt T)]
        exact hc
      · rintro ⟨p, hp, hc⟩
        refine ⟨p, hp, ?_⟩
        obtain ⟨v1, hv1⟩ := JsInt.isInt_iff.mp (hnum p hp).1
        obtain ⟨v2, hv2⟩ := JsInt.isInt_iff.mp (hnum p hp).2
        obtain ⟨w1, hw1⟩ := normalize_int v1
        obtain ⟨w2, hw2⟩ := normalize_int v2
        rw [hv1, hv2, hw1, hw2] at hc ⊢
        rw [intervalContains_eq_spec _ _ _ (minutesOf_nonneg T) (minutesOf_lt T)]
        exact hc


/-- C2 (counterexample).  A schedule whose sole Sunday interval has the
non-numeric start "x" is reported open at Sunday 05:00 (minute 300),
while the containment rule of the claim matches no interval, refuting
the claimed equivalence as stated over all schedules. -/
theorem isOpenNow_claim_false :
    isOpenNow (some [("sun", [("x", "10:00")])]) ⟨0, 5, 0⟩ = true ∧
    minutesOf ⟨0, 5, 0⟩ = 300 ∧
    specIntervalContainsB (normalize (toMinutes "x")) (normalize (toMinutes "10:00")) 300 = false := by
  decide


/-- C2 (witness).  The amended theorem applied to the overnight-wrap
schedule of the spec: open Monday 23:30 for the day entry
22:00 to 02:00. -/
theorem isOpenNow_amended_witness :
    isOpenNow (some [("mon", [("22:00", "02:00")])]) ⟨1, 23, 30⟩ = true := by
  have h4 := (isOpenNow_amended ⟨1, 23, 30⟩).2.2.2
    [("mon", [("22:00", "02:00")])] [("22:00", "02:00")] (by decide)
    (by decide)
  exact h4.mpr ⟨("22:00", "02:00"), by decide, by decide⟩


/-- Helper: toMinutes on components that parse as integers. -/
theorem toMinutes_components (t : String) (h m : ℤ)
    (hh : parseIntChars (hourStrOf t) = .int h)
    (hm : parseIntChars (minuteStrOf t) = .int m) :
    toMinutes t = .int (h * 60 + m) := by
  simp [toMinutes, hh, hm, jsAdd, jsMul]


/-- C4 (amended theorem).  For an endpoint time string whose hour and
minute components parse as integers, the internal value
normalize (toMinutes t) equals (hours * 60 + minutes) modulo 1440 and
lies in [0, 1440) provided hours * 60 + minutes lies in [-1440, 2880):
normalize performs one single wrap step, so values outside this window
are not fully normalized (see normalize_not_emod_ce). -/
theorem normalize_toMinutes_emod (t : String) (h m : ℤ)
    (hh : parseIntChars (hourStrOf t) = .int h)
    (hm : parseIntChars (minuteStrOf t) = .int m)
    (hlo : -1440 ≤ h * 60 + m) (hhi : h * 60 + m < 2880) :
    normalize (toMinutes t) = .int ((h * 60 + m) % 1440) ∧
    0 ≤ (h * 60 + m) % 1440 ∧ (h * 60 + m) % 1440 < 1440 := by
  rw [toMinutes_components t h m hh hm]
  simp only [normalize, MINUTES_IN_DAY]
  refine ⟨?_, by omega, by omega⟩
  split_ifs <;> simp <;> omega


/-- C4 (counterexample).  The endpoint "48:00" parses to 2880 minutes;
one wrap step leaves 1440, which is neither (48 * 60 + 0) mod 1440 = 0
nor inside [0, 1440), refuting the claim for arbitrarily large clock
values. -/
theorem normalize_not_emod_ce :
    parseIntChars (hourStrOf "48:00") = .int 48 ∧
    parseIntChars (minuteStrOf "48:00") = .int 0 ∧
    normalize (toMinutes "48:00") = .int 1440 ∧
    ¬ ((1440 : ℤ) = (48 * 60 + 0 : ℤ) % 1440 ∧ (1440 : ℤ) < 1440) := by
  decide


/-- C4 (witness).  The amended theorem applied to the overflowing
endpoint "25:30": the internal value is (25 * 60 + 30) mod 1440 and lies
in [0, 1440). -/
theorem normalize_toMinutes_emod_witness :
    normalize (toMinutes "25:30") = .int ((25 * 60 + 30 : ℤ) % 1440) ∧
    0 ≤ (25 * 60 + 30 : ℤ) % 1440 ∧ (25 * 60 + 30 : ℤ) % 1440 < 1440 :=
  normalize_toMinutes_emod "25:30" 25 30 (by decide) (by decide) (by decide) (by decide)


/-- C6 (amended theorem).  An interval BOTH of whose endpoint strings
yield NaN minutes is never matched at any minute of the day; and a time
string lacking a minute component parses as its hour component with the
minutes defaulted to 0.  The claim as stated also covered an interval
with one NaN endpoint and an arbitrary other endpoint, which the
counterexample nan_start_matches_ce refutes. -/
theorem nan_endpoints_never_match :
    (∀ s e : String, toMinutes s = .nan → toMinutes e = .nan →
      ∀ current : ℤ,
        intervalContains (normalize (toMinutes s)) (normalize (toMinutes e)) current = false) ∧
    (∀ t : String, ∀ h : ℤ, timeParts t = [t.data] → parseIntChars t.data = .int h →
      toMinutes t = .int (h * 60)) := by
  constructor
  · intro s e hs he current
    rw [hs, he]
    simp [normalize, intervalContains, jsLe, jsGe, jsLt]
  · intro t h hsplit hparse
    have h0 : parseIntChars ['0'] = .int 0 := by decide
    simp [toMinutes, hourStrOf, minuteStrOf, hsplit, hparse, h0, jsMul, jsAdd]


/-- C6 (counterexample).  The interval ("ab", "10:00") has a fully
non-numeric start string, yet the evaluator reports the location open at
Monday 05:00: a NaN start fails the start-below-end comparison, so the
code takes the overnight branch, whose second disjunct compares the
current minute against the numeric end only. -/
theorem nan_start_matches_ce :
    toMinutes "ab" = JsInt.nan ∧
    isOpenNow (some [("mon", [("ab", "10:00")])]) ⟨1, 5, 0⟩ = true := by
  decide


/-- C6 (witness).  The amended theorem applied to the both-NaN interval
("ab", "cd") at minute 0, and to the minute-less time string "9". -/
theorem nan_endpoints_never_match_witness :
    intervalContains (normalize (toMinutes "ab")) (normalize (toMinutes "cd")) 0 = false ∧
    toMinutes "9" = .int (9 * 60) :=
  ⟨nan_endpoints_never_match.1 "ab" "cd" (by decide) (by decide) 0,
   nan_endpoints_never_match.2 "9" 9 (by decide) (by decide)⟩


/-- Helper: the null-last distance order is transitive. -/
theorem keyLe_trans : ∀ a b c : Option ℚ,
    keyLe a b = true → keyLe b c = true → keyLe a c = true := by
  intro a b c hab hbc
  rcases a with _ | x <;> rcases b with _ | y <;> rcases c with _ | z <;>
    simp_all [keyLe]
  exact hab.trans hbc


/-- Helper: the null-last distance order is total. -/
theorem keyLe_total : ∀ a b : Option ℚ, (keyLe a b || keyLe b a) = true := by
  intro a b
  rcases a with _ | x <;> rcases b with _ | y <;> simp [keyLe]
  exact le_total x y


/-- Helper: the record comparator order is transitive. -/
theorem sortLe_trans : ∀ a b c : LocationRecord,
    sortLe a b = true → sortLe b c = true → sortLe a c = true :=
  fun a b c hab hbc => keyLe_trans a.meters b.meters c.meters hab hbc


/-- Helper: the record comparator order is total. -/
theorem sortLe_total : ∀ a b : LocationRecord, (sortLe a b || sortLe b a) = true :=
  fun a b => keyLe_total a.meters b.meters


/-- C3.  For every distance function, evaluation instant, record list
and criteria: applyFilters returns at most MAX_RESULTS = 50 entries and
no more than its input has, and its output is pairwise ordered by the
comparator order (ascending distance, null distance last, so every
absent-distance entry follows every present-distance entry); the last
conjunct restates sortedness for every permutation of the input
explicitly (it is an instance of the universal quantification over
records). -/
theorem applyFilters_bounds_sorted (dist : ℚ → ℚ → ℚ → ℚ → ℚ) (now : JsDate)
    (records : List LocationRecord) (opts : FilterOptions) :
    (applyFilters dist now records opts).length ≤ MAX_RESULTS ∧
    (applyFilters dist now records opts).length ≤ records.length ∧
    List.Sorted (fun a b => sortLe a b = true) (applyFilters dist now records opts) ∧
    ∀ records2, records2.Perm records →
      List.Sorted (fun a b => sortLe a b = true) (applyFilters dist now records2 opts) := by
  have key : ∀ rs : List LocationRecord,
      List.Sorted (fun a b => sortLe a b = true) (applyFilters dist now rs opts) := by
    intro rs
    unfold applyFilters
    exact List.Pairwise.sublist (List.take_sublist _ _)
      (List.sorted_mergeSort sortLe_trans sortLe_total _)
  refine ⟨?_, ?_, key records, fun rs2 _ => key rs2⟩
  · unfold applyFilters
    exact List.length_take_le _ _
  · unfold applyFilters
    rw [List.length_take, List.length_mergeSort]
    have hf := List.length_filter_le (filterKeep now opts)
      (records.map fun record =>
        if record.meters != none then record
        else attachDistance dist record opts.lat opts.lng)
    rw [List.length_map] at hf
    omega

def dist0 : ℚ → ℚ → ℚ → ℚ → ℚ := fun _ _ _ _ => 0

def date0 : JsDate := ⟨0, 0, 0⟩

def optsNoFilter : FilterOptions :=
  { category := none, openNow := false, accessible := none, pets := none,
    gender := none, radiusKm := 5, lat := 0, lng := 0 }


/-- C3 (witness).  The permutation conjunct applied to the empty list
and its identity permutation. -/
theorem applyFilters_bounds_sorted_witness :
    List.Sorted (fun a b => sortLe a b = true) (applyFilters dist0 date0 [] optsNoFilter) :=
  (applyFilters_bounds_sorted dist0 date0 [] optsNoFilter).2.2.2 [] (List.Perm.refl _)


/-- C7.  The radius rule of the predicate filter: a present (hence, in
the rational model, finite) distance is not excluded exactly when it
does not exceed radiusKm * 1000; the boundary value is retained;
and a null distance is never excluded. -/
theorem radiusExcludes_spec (m radiusKm : ℚ) :
    (radiusExcludes (some m) radiusKm = false ↔ m ≤ radiusKm * 1000) ∧
    radiusExcludes (some (radiusKm * 1000)) radiusKm = false ∧
    radiusExcludes none radiusKm = false := by
  refine ⟨?_, ?_, rfl⟩
  · simp [radiusExcludes, not_lt]
  · simp [radiusExcludes]


/-- C7 (witness).  The radius rule evaluated at distance 100 metres
against a 5 km radius. -/
theorem radiusExcludes_spec_witness :
    (radiusExcludes (some 100) 5 = false ↔ (100 : ℚ) ≤ 5 * 1000) ∧
    radiusExcludes (some ((5 : ℚ) * 1000)) 5 = false ∧
    radiusExcludes none (5 : ℚ) = false :=
  radiusExcludes_spec 100 5


/-- C5 (amended theorem).  applyFilters is a pure, deterministic
function of (locations, criteria, evaluation instant); when the open-now
filter is not set its result does not depend on the evaluation instant
at all.  The unamended claim (independence also with open-now set) is
refuted by applyFilters_wall_clock_ce: the undated isOpenNow call inside
the filter reads the wall clock. -/
theorem applyFilters_time_independent (dist : ℚ → ℚ → ℚ → ℚ → ℚ)
    (records : List LocationRecord) (opts : FilterOptions) (t1 t2 : JsDate)
    (h : opts.openNow = false) :
    applyFilters dist t1 records opts = applyFilters dist t2 records opts := by
  unfold applyFilters
  congr 1
  congr 1
  apply List.filter_congr
  intro r _
  simp [filterKeep, h]

def openMonRecord : LocationRecord :=
  { id := "r1", name := "Open Mondays", category := "shelter", phone := none,
    website := none, address := none, notes := none, meters := some 100,
    capacity := none, beds_available := none,
    hours := some [("mon", [("09:00", "17:00")])], accessible := none,
    pets_allowed := none, gender_restriction := none, lgbtq_friendly := none,
    updated_at := none, last_verified_at := none, source := none,
    latitude := none, longitude := none }

def openNowOpts : FilterOptions :=
  { category := none, openNow := true, accessible := none, pets := none,
    gender := none, radiusKm := 5, lat := 0, lng := 0 }


/-- C5 (counterexample).  With the open-now filter set, the same
record list and criteria produce different results at Monday 10:00 and
Monday 20:00 for a record whose hours are 09:00 to 17:00 on Mondays:
applyFilters is not a function of (locations, criteria) alone. -/
theorem applyFilters_wall_clock_ce :
    applyFilters dist0 ⟨1, 10, 0⟩ [openMonRecord] openNowOpts ≠
    applyFilters dist0 ⟨1, 20, 0⟩ [openMonRecord] openNowOpts := by
  have hopen1 : isOpenNow (some [("mon", [("09:00", "17:00")])]) ⟨1, 10, 0⟩ = true := by
    decide
  have hopen2 : isOpenNow (some [("mon", [("09:00", "17:00")])]) ⟨1, 20, 0⟩ = false := by
    decide
  have hrad : radiusExcludes (some 100) (5 : ℚ) = false := by
    simp [radiusExcludes]
    norm_num
  have hk1 : filterKeep ⟨1, 10, 0⟩ openNowOpts openMonRecord = true := by
    simp [filterKeep, openNowOpts, openMonRecord, jsTruthyStr, hopen1, hrad]
  have hk2 : filterKeep ⟨1, 20, 0⟩ openNowOpts openMonRecord = false := by
    simp [filterKeep, openNowOpts, openMonRecord, jsTruthyStr, hopen2]
  have hms : openMonRecord.meters = some 100 := rfl
  have h1 : applyFilters dist0 ⟨1, 10, 0⟩ [openMonRecord] openNowOpts = [openMonRecord] := by
    unfold applyFilters
    simp [hk1, hms, MAX_RESULTS]
  have h2 : applyFilters dist0 ⟨1, 20, 0⟩ [openMonRecord] openNowOpts = [] := by
    unfold applyFilters
    simp [hk2, hms]
  rw [h1, h2]
  simp


/-- C5 (witness).  The amended theorem applied to a concrete record
list with the open-now filter unset and two different instants. -/
theorem applyFilters_time_independent_witness :
    applyFilters dist0 date0 [openMonRecord] optsNoFilter =
    applyFilters dist0 ⟨1, 20, 0⟩ [openMonRecord] optsNoFilter :=
  applyFilters_time_independent dist0 [openMonRecord] optsNoFilter date0 ⟨1, 20, 0⟩ rfl

def emptyRow : NearbyLocationRow :=
  { id := "", name := "", category := "", phone := none, website := none,
    address := none, notes := none, meters := none, capacity := none,
    beds_available := none, hours := none, accessible := none,
    pets_allowed := none, gender_restriction := none, lgbtq_friendly := none,
    updated_at := none, last_verified_at := none, source := none,
    latitude := none, longitude := none, lat := none, lng := none,
    geom := Json.null }


/-- C8.  For every rational pair (phi, lam) and every string that
JSON-parses to the geometry object with coordinates [lam, phi] in
longitude-latitude order: a row with explicit lat/lng fields, a row with
the structured geometry object, and a row with that structure as text
all resolve through extractCoordinates to the same canonical
(latitude, longitude) pair (phi, lam). -/
theorem extractCoordinates_roundtrip (phi lam : ℚ) (s : String)
    (hs : jsonParse s =
      some (Json.obj [("coordinates", Json.arr [Json.num lam, Json.num phi])])) :
    extractCoordinates { emptyRow with lat := some phi, lng := some lam } =
      (Json.num phi, Json.num lam) ∧
    extractCoordinates { emptyRow with
        geom := Json.obj [("coordinates", Json.arr [Json.num lam, Json.num phi])] } =
      (Json.num phi, Json.num lam) ∧
    extractCoordinates { emptyRow with geom := Json.str s } =
      (Json.num phi, Json.num lam) := by
  refine ⟨rfl, ?_, ?_⟩
  · simp [extractCoordinates, emptyRow, coordFromGeomObj, jsTruthyJson, isObjectJson,
      hasCoordinates, getField]
  · simp [extractCoordinates, emptyRow, coordFromGeomObj, coordFromGeomText,
      jsTruthyJson, isObjectJson, hasCoordinates, hs, getField]


/-- C8 (witness).  The round trip evaluated at the integer pair
(43, -79), with the serialized geometry parsed by the JSON.parse
model. -/
theorem extractCoordinates_roundtrip_witness :
    extractCoordinates { emptyRow with lat := some 43, lng := some (-79) } =
      (Json.num 43, Json.num (-79)) ∧
    extractCoordinates { emptyRow with
        geom := Json.obj [("coordinates", Json.arr [Json.num (-79), Json.num 43])] } =
      (Json.num 43, Json.num (-79)) ∧
    extractCoordinates { emptyRow with geom := Json.str "\x7b\"coordinates\":[-79,43]\x7d" } =
      (Json.num 43, Json.num (-79)) :=
  extractCoordinates_roundtrip 43 (-79) "\x7b\"coordinates\":[-79,43]\x7d" (by rfl)


/-- C10 (amended theorem).  extractCoordinates returns both
coordinates present (non-null) or both absent for every row whose
geometry branches deliver non-null array entries; and a row whose
longitude field is absent resolves exactly as if its latitude field were
also absent, i.e. a numeric latitude with an absent longitude falls
through to the later resolution shapes.  The restriction on geometry
entries is forced by extractCoordinates_partial_pair_ce: the geometry
branches return the first two array entries verbatim, so a null entry
yields a partial pair. -/
theorem extractCoordinates_pair_invariant (row : NearbyLocationRow) :
    (∀ latV lngV, coordFromGeomObj row.geom = some (latV, lngV) →
      latV ≠ Json.null ∧ lngV ≠ Json.null) →
    (∀ latV lngV, coordFromGeomText row.geom = some (latV, lngV) →
      latV ≠ Json.null ∧ lngV ≠ Json.null) →
    ((extractCoordinates row = (Json.null, Json.null) ∨
      ((extractCoordinates row).1 ≠ Json.null ∧ (extractCoordinates row).2 ≠ Json.null)) ∧
     (row.longitude = none →
       extractCoordinates row = extractCoordinates { row with latitude := none })) := by
  intro hobj htext
  constructor
  · rcases h1 : row.latitude with _ | a <;> rcases h2 : row.longitude with _ | b <;>
      rcases h3 : row.lat with _ | c <;> rcases h4 : row.lng with _ | d <;>
      rcases h5 : coordFromGeomObj row.geom with _ | p <;>
      rcases h6 : coordFromGeomText row.geom with _ | q <;>
      simp only [extractCoordinates, h1, h2, h3, h4, h5, h6] <;>
      first
        | (left; trivial)
        | (right; constructor <;> simp; done)
        | (right; refine hobj p.1 p.2 ?_; rw [Prod.mk.eta]; exact h5)
        | (right; refine htext q.1 q.2 ?_; rw [Prod.mk.eta]; exact h6)
  · intro h2
    rcases h1 : row.latitude with _ | a <;>
      simp only [extractCoordinates, h1, h2]


/-- C10 (counterexample).  A geometry object with coordinates
[null, 5] resolves to latitude 5 with a null longitude: exactly one
coordinate present, refuting the unrestricted both-or-neither claim. -/
theorem extractCoordinates_partial_pair_ce :
    extractCoordinates { emptyRow with
        geom := Json.obj [("coordinates", Json.arr [Json.null, Json.num 5])] } =
      (Json.num 5, Json.null) ∧ Json.num 5 ≠ Json.null := by
  exact ⟨rfl, by simp⟩


/-- C10 (witness).  The amended theorem applied to a row with only a
numeric latitude field and no geometry. -/
theorem extractCoordinates_pair_invariant_witness :
    extractCoordinates { emptyRow with latitude := some 1 } = (Json.null, Json.null) ∨
    ((extractCoordinates { emptyRow with latitude := some 1 }).1 ≠ Json.null ∧
     (extractCoordinates { emptyRow with latitude := some 1 }).2 ≠ Json.null) :=
  (extractCoordinates_pair_invariant { emptyRow with latitude := some 1 }
    (by intro latV lngV h; simp [emptyRow, coordFromGeomObj, jsTruthyJson] at h)
    (by intro latV lngV h; simp [emptyRow, coordFromGeomText] at h)).1


/-- C1.  For every request whose origin coordinates parse, whenever
the store outcome is a failure (no configured client, a thrown rpc, an
error payload, or a response carrying no data), GET answers with an OK
result set computed by the pipeline over the bundled dataset with every
distance reset to absent before filtering; the backend problem is never
surfaced as an error response. -/
theorem fallback_on_store_failure (dist : ℚ → ℚ → ℚ → ℚ → ℚ) (now : JsDate)
    (params : SearchParams) (store : StoreResult) (latV lngV : ℚ)
    (hlat : parseNumber params.lat = some latV)
    (hlng : parseNumber params.lng = some lngV)
    (hstore : store = .noClient ∨ store = .rpcThrew ∨ store = .rpcError ∨
      store = .rpcData none) :
    GET dist now params store =
      .ok (applyFilters dist now fallbackRecords (filterOptionsOf params latV lngV)) := by
  unfold GET
  rcases hstore with h | h | h | h <;> subst h <;> simp [hlat, hlng]


/-- C9.  For every request whose lat or lng parameter is missing or
does not parse as a number, GET answers with the 400 client-error
payload carrying an error string, and the response is the same for every
store outcome: neither the store call nor the fallback dataset
influences it. -/
theorem invalid_coords_client_error (dist : ℚ → ℚ → ℚ → ℚ → ℚ) (now : JsDate)
    (params : SearchParams) (store : StoreResult)
    (h : parseNumber params.lat = none ∨ parseNumber params.lng = none) :
    GET dist now params store =
      .clientError 400 "Query parameters lat and lng are required." := by
  unfold GET
  rcases h with h | h
  · simp [h]
  · rcases hl : parseNumber params.lat with _ | v <;> simp [h, hl]

def paramsValid : SearchParams :=
  { lat := some "43", lng := some "-79", radius_km := none, category := none,
    open_now := none, accessible := none, pets := none, gender := none }

def paramsNoLat : SearchParams :=
  { lat := none, lng := some "43", radius_km := none, category := none,
    open_now := none, accessible := none, pets := none, gender := none }


/-- Helper: the coordinate string 43 parses to the rational 43. -/
theorem parseNumber_43 : parseNumber (some "43") = some 43 := by
  norm_num +decide [show '4'.toNat = 52 from rfl, show '3'.toNat = 51 from rfl,
    parseNumber, jsParseFloat, skipWsChars, isWsChar, takeDigits, isDigitChar,
    digitsToNat, digitVal, takeFracDigits]


/-- Helper: the coordinate string -79 parses to the rational -79. -/
theorem parseNumber_neg79 : parseNumber (some "-79") = some (-79) := by
  norm_num +decide [show '7'.toNat = 55 from rfl, show '9'.toNat = 57 from rfl,
    parseNumber, jsParseFloat, skipWsChars, isWsChar, takeDigits, isDigitChar,
    digitsToNat, digitVal, takeFracDigits]


/-- C1 (witness).  GET evaluated at concrete parsable coordinates with
no configured store client. -/
theorem fallback_on_store_failure_witness :
    GET dist0 date0 paramsValid .noClient =
      .ok (applyFilters dist0 date0 fallbackRecords (filterOptionsOf paramsValid 43 (-79))) :=
  fallback_on_store_failure dist0 date0 paramsValid .noClient 43 (-79)
    parseNumber_43 parseNumber_neg79 (Or.inl rfl)


/-- C9 (witness).  GET evaluated with a missing lat parameter. -/
theorem invalid_coords_client_error_witness :
    GET dist0 date0 paramsNoLat .noClient =
      .clientError 400 "Query parameters lat and lng are required." :=
  invalid_coords_client_error dist0 date0 paramsNoLat .noClient (Or.inl rfl)

end SafeBed
